import Mathlib

/-!
Verification model of the mocknet burnchain controller
(`testnet/stacks-node/src/burnchains/mocknet_controller.rs`).

The controller simulates a simplistic burnchain: it derives the next block
header from the current tip by hashing the tip's header hash with SHA-256,
queues submitted operations FIFO, and on `sync` drains the queue, stamps each
operation with a txid / vtxindex / block height / header hash, and hands the
stamped batch to the external sortition-ledger transaction.

Machine integers are modelled as `Nat` reduced mod `2^32` (resp. `2^8`) where
the code's `u32` / byte arithmetic wraps.  Wall-clock time
(`get_epoch_time_secs`, `Instant::now`) is passed as an explicit `now`
parameter.  The external sortition DB and its transaction are passed as
explicit parameters (`connect` result, `Committer` function); `Except.error`
models the Rust panics (`unwrap` / `unreachable!` / `expect`).
-/

namespace Mocknet

/-! ### SHA-256 (the `Sha256Sum::from_data` primitive used by the controller)

Bytes are `Nat` values below 256, words are `Nat` values below `2^32`. -/

/-- Truncation to a 32-bit word. -/
def w32 (x : Nat) : Nat := x % 4294967296

/-- Right rotation of a 32-bit word by `n` bits. -/
def rotr32 (n x : Nat) : Nat := w32 ((x >>> n) ||| (x <<< (32 - n)))

/-- Bitwise complement of a 32-bit word. -/
def not32 (x : Nat) : Nat := x ^^^ 4294967295

/-- The SHA-256 round constants (FIPS 180-4, in decimal). -/
def sha256K : List Nat :=
  [1116352408, 1899447441, 3049323471, 3921009573, 961987163, 1508970993,
   2453635748, 2870763221, 3624381080, 310598401, 607225278, 1426881987,
   1925078388, 2162078206, 2614888103, 3248222580, 3835390401, 4022224774,
   264347078, 604807628, 770255983, 1249150122, 1555081692, 1996064986,
   2554220882, 2821834349, 2952996808, 3210313671, 3336571891, 3584528711,
   113926993, 338241895, 666307205, 773529912, 1294757372, 1396182291,
   1695183700, 1986661051, 2177026350, 2456956037, 2730485921, 2820302411,
   3259730800, 3345764771, 3516065817, 3600352804, 4094571909, 275423344,
   430227734, 506948616, 659060556, 883997877, 958139571, 1322822218,
   1537002063, 1747873779, 1955562222, 2024104815, 2227730452, 2361852424,
   2428436474, 2756734187, 3204031479, 3329325298]

/-- The eight 32-bit words of the SHA-256 compression state. -/
structure Sha256State where
  a : Nat
  b : Nat
  c : Nat
  d : Nat
  e : Nat
  f : Nat
  g : Nat
  h : Nat
deriving DecidableEq, Repr

/-- The SHA-256 initial hash value (FIPS 180-4, in decimal). -/
def sha256H0 : Sha256State :=
  ⟨1779033703, 3144134277, 1013904242, 2773480762,
   1359893119, 2600822924, 528734635, 1541459225⟩

/-- One SHA-256 compression round; `kw` is the round constant plus the
message-schedule word. -/
def sha256Round (st : Sha256State) (kw : Nat) : Sha256State :=
  let bigS1 := (rotr32 6 st.e) ^^^ (rotr32 11 st.e) ^^^ (rotr32 25 st.e)
  let ch := (st.e &&& st.f) ^^^ ((not32 st.e) &&& st.g)
  let temp1 := w32 (st.h + bigS1 + ch + kw)
  let bigS0 := (rotr32 2 st.a) ^^^ (rotr32 13 st.a) ^^^ (rotr32 22 st.a)
  let maj := (st.a &&& st.b) ^^^ (st.a &&& st.c) ^^^ (st.b &&& st.c)
  let temp2 := w32 (bigS0 + maj)
  ⟨w32 (temp1 + temp2), st.a, st.b, st.c, w32 (st.d + temp1), st.e, st.f, st.g⟩

/-- Big-endian packing of bytes into 32-bit words (four bytes per word). -/
def bytesToWords : List Nat → List Nat
  | b0 :: b1 :: b2 :: b3 :: rest =>
      (b0 * 16777216 + b1 * 65536 + b2 * 256 + b3) :: bytesToWords rest
  | _ => []

/-- Extension of the 16 chunk words to the 64-word message schedule. -/
def sha256Extend (w : List Nat) : List Nat :=
  (List.range 48).foldl (fun acc _ =>
    let i := acc.length
    let x15 := acc.getD (i - 15) 0
    let x2 := acc.getD (i - 2) 0
    let s0 := (rotr32 7 x15) ^^^ (rotr32 18 x15) ^^^ (x15 >>> 3)
    let s1 := (rotr32 17 x2) ^^^ (rotr32 19 x2) ^^^ (x2 >>> 10)
    acc ++ [w32 (acc.getD (i - 16) 0 + s0 + acc.getD (i - 7) 0 + s1)]) w

/-- Compression of one 64-byte chunk into the running hash state. -/
def sha256Compress (hs : Sha256State) (chunk : List Nat) : Sha256State :=
  let w := sha256Extend (bytesToWords chunk)
  let kw := List.zipWith (fun k wi => w32 (k + wi)) sha256K w
  let st := kw.foldl sha256Round hs
  ⟨w32 (hs.a + st.a), w32 (hs.b + st.b), w32 (hs.c + st.c), w32 (hs.d + st.d),
   w32 (hs.e + st.e), w32 (hs.f + st.f), w32 (hs.g + st.g), w32 (hs.h + st.h)⟩

/-- SHA-256 padding: a `0x80` byte, zeros to 56 mod 64, and the bit length
as eight big-endian bytes. -/
def sha256Pad (msg : List Nat) : List Nat :=
  let len := msg.length
  let zeros := (119 - len % 64) % 64
  let bitLen := len * 8
  msg ++ [128] ++ List.replicate zeros 0 ++
    ((List.range 8).reverse.map fun i => (bitLen >>> (8 * i)) % 256)

/-- Splitting a padded message into 64-byte chunks. -/
def sha256Chunks (l : List Nat) : List (List Nat) :=
  if hl : l = [] then [] else l.take 64 :: sha256Chunks (l.drop 64)
termination_by l.length
decreasing_by
  simp only [List.length_drop]
  have hpos : 0 < l.length := List.length_pos.mpr hl
  omega

/-- Big-endian serialization of the final hash state into 32 digest bytes. -/
def sha256StateBytes (s : Sha256State) : List Nat :=
  [(s.a >>> 24) % 256, (s.a >>> 16) % 256, (s.a >>> 8) % 256, s.a % 256,
   (s.b >>> 24) % 256, (s.b >>> 16) % 256, (s.b >>> 8) % 256, s.b % 256,
   (s.c >>> 24) % 256, (s.c >>> 16) % 256, (s.c >>> 8) % 256, s.c % 256,
   (s.d >>> 24) % 256, (s.d >>> 16) % 256, (s.d >>> 8) % 256, s.d % 256,
   (s.e >>> 24) % 256, (s.e >>> 16) % 256, (s.e >>> 8) % 256, s.e % 256,
   (s.f >>> 24) % 256, (s.f >>> 16) % 256, (s.f >>> 8) % 256, s.f % 256,
   (s.g >>> 24) % 256, (s.g >>> 16) % 256, (s.g >>> 8) % 256, s.g % 256,
   (s.h >>> 24) % 256, (s.h >>> 16) % 256, (s.h >>> 8) % 256, s.h % 256]

/-- SHA-256 digest (32 bytes) of a byte list: `Sha256Sum::from_data`. -/
def Sha256Sum.from_data (msg : List Nat) : List Nat :=
  sha256StateBytes ((sha256Chunks (sha256Pad msg)).foldl sha256Compress sha256H0)

/-- A SHA-256 digest always has 32 bytes. -/
theorem Sha256Sum.from_data_length (msg : List Nat) : (Sha256Sum.from_data msg).length = 32 := rfl

/-! ### Data model

Payload fields that the controller never inspects (consensus hashes, keys,
memos, burn fees, ...) are modelled as opaque `Nat` atoms; the controller
only moves them around.  Hash values that the controller does compute with
(`burn_header_hash`, `txid`, block hashes) are byte lists. -/

/-- Raw bytes of a burnchain header hash (`BurnchainHeaderHash`). -/
abbrev BurnchainHeaderHashBytes := List Nat

/-- Modelled from the spec: `BurnchainHeaderHash::from_bytes` succeeds exactly
on 32-byte inputs (the hash is a 32-byte value). -/
def BurnchainHeaderHash.from_bytes (b : List Nat) : Option BurnchainHeaderHashBytes :=
  if b.length = 32 then some b else none

/-- Raw bytes of a transaction id (`Txid`). -/
abbrev TxidBytes := List Nat

/-- Modelled from the spec: the block snapshot stored by the sortition ledger,
restricted to the fields the controller reads (height, header hash, and the
ledger-defined sortition identifier used to anchor the transaction). -/
structure BlockSnapshot where
  block_height : Nat
  burn_header_hash : BurnchainHeaderHashBytes
  sortition_id : Nat
deriving DecidableEq, Repr

/-- Modelled from the spec: a burnchain block header — height, own hash,
parent hash, number of embedded transactions, and creation timestamp
(the fields `BitcoinBlock::new` receives and `header()` exposes). -/
structure BurnchainBlockHeader where
  block_height : Nat
  block_hash : BurnchainHeaderHashBytes
  parent_block_hash : BurnchainHeaderHashBytes
  num_txs : Nat
  timestamp : Nat
deriving DecidableEq, Repr

/-- The `LeaderKeyRegisterOp` operation: caller-supplied payload fields
(opaque atoms) plus the four shared stamped fields. -/
structure LeaderKeyRegisterOp where
  consensus_hash : Nat
  public_key : Nat
  memo : Nat
  address : Nat
  txid : TxidBytes
  vtxindex : Nat
  block_height : Nat
  burn_header_hash : BurnchainHeaderHashBytes
deriving DecidableEq, Repr

/-- The `LeaderBlockCommitOp` operation: caller-supplied payload fields
(opaque atoms) plus the four shared stamped fields. -/
structure LeaderBlockCommitOp where
  block_header_hash : Nat
  new_seed : Nat
  parent_block_ptr : Nat
  parent_vtxindex : Nat
  key_block_ptr : Nat
  key_vtxindex : Nat
  memo : Nat
  burn_fee : Nat
  input : Nat
  txid : TxidBytes
  vtxindex : Nat
  block_height : Nat
  burn_header_hash : BurnchainHeaderHashBytes
deriving DecidableEq, Repr

/-- The `UserBurnSupportOp` operation: caller-supplied payload fields
(opaque atoms) plus the four shared stamped fields. -/
structure UserBurnSupportOp where
  address : Nat
  consensus_hash : Nat
  public_key : Nat
  key_block_ptr : Nat
  key_vtxindex : Nat
  block_header_hash_160 : Nat
  burn_fee : Nat
  txid : TxidBytes
  vtxindex : Nat
  block_height : Nat
  burn_header_hash : BurnchainHeaderHashBytes
deriving DecidableEq, Repr

/-- The `BlockstackOperationType` sum of the three operation variants. -/
inductive BlockstackOperationType where
  | LeaderKeyRegister (payload : LeaderKeyRegisterOp)
  | LeaderBlockCommit (payload : LeaderBlockCommitOp)
  | UserBurnSupport (payload : UserBurnSupportOp)
deriving DecidableEq, Repr

/-- Modelled from the spec: the state-transition record returned by the
external acceptance transformation — accepted operations, burn distribution,
consumed leader keys.  Opaque to this core beyond being threaded through. -/
structure BurnchainStateTransition where
  burn_dist : List Nat
  accepted_ops : List BlockstackOperationType
  consumed_leader_keys : List Nat
deriving DecidableEq, Repr

/-- The `BurnchainTip` published by the controller: snapshot, transition
record, and local receipt time (`Instant::now`, modelled as a `Nat`). -/
structure BurnchainTip where
  block_snapshot : BlockSnapshot
  state_transition : BurnchainStateTransition
  received_at : Nat
deriving DecidableEq, Repr

/-- Modelled from the spec: the signer argument of `submit_operation`,
accepted for interface parity and unused by the simulator (opaque atom). -/
abbrev BurnchainOpSigner := Nat

/-- The `MocknetController` state: configuration and burnchain parameters
(opaque atoms, never inspected by the modelled operations), the optional DB
handle (`some ()` once connected — its behavior lives in the `Committer`
parameter of `sync`), the cached chain tip, and the FIFO operation queue
(front of the `VecDeque` at the head of the list). -/
structure MocknetController where
  config : Nat
  burnchain : Nat
  db : Option Unit
  chain_tip : Option BurnchainTip
  queued_operations : List BlockstackOperationType
deriving DecidableEq, Repr

/-- `MocknetController::new`: fresh controller with no DB, no tip, empty
queue (the `Burnchain::new` call is external; its result is the opaque
`burnchain` atom). -/
def MocknetController.new (config burnchain : Nat) : MocknetController :=
  { config := config, burnchain := burnchain, db := none,
    chain_tip := none, queued_operations := [] }

/-! ### Operations of the controller -/

/-- `build_next_block_header`: hash the current tip's header hash with
SHA-256 to obtain the next header's hash; height increments by one; the
wall clock (`get_epoch_time_secs`) is the explicit `now` parameter.  The
`BitcoinBlock::new(...)` / `.header()` round trip of the source constructs
exactly these header fields from the empty transaction list. -/
def build_next_block_header (current_block : BlockSnapshot) (now : Nat) : BurnchainBlockHeader :=
  let curr_hash := current_block.burn_header_hash
  let next_hash := Sha256Sum.from_data curr_hash
  { block_height := current_block.block_height + 1,
    block_hash := (BurnchainHeaderHash.from_bytes next_hash).getD [],
    parent_block_hash := current_block.burn_header_hash,
    num_txs := 0,
    timestamp := now }

/-- `get_chain_tip`: returns the cached tip; `none` models the
`unreachable!` panic on an uninitialized controller. -/
def get_chain_tip (st : MocknetController) : Option BurnchainTip :=
  st.chain_tip

/-- `start`: connect to the sortition DB and read its canonical stubbed tip
(both external; their combined result is the `connect` parameter, with
`Except.error` modelling the connection/query panics), then publish the
genesis tip with an empty state transition. -/
def start (connect : Except Unit BlockSnapshot) (st : MocknetController) (now : Nat) :
    MocknetController × Except Unit BurnchainTip :=
  match connect with
  | Except.error e => (st, Except.error e)
  | Except.ok block_snapshot =>
    let genesis_state : BurnchainTip :=
      { block_snapshot := block_snapshot,
        state_transition :=
          { burn_dist := [], accepted_ops := [], consumed_leader_keys := [] },
        received_at := now }
    ({ st with db := some (), chain_tip := some genesis_state }, Except.ok genesis_state)

/-- `submit_operation`: push the operation at the back of the queue and
return `true`; the signer is ignored. -/
def submit_operation (st : MocknetController) (operation : BlockstackOperationType)
    (_op_signer : BurnchainOpSigner) : MocknetController × Bool :=
  ({ st with queued_operations := st.queued_operations ++ [operation] }, true)

/-- The txid assigned inside the drain loop of `sync`:
`Sha256Sum::from_data` of the UTF-8 bytes of
`format!("{}::{}", block_height, vtxindex)`. -/
def mkTxid (block_height vtxindex : Nat) : TxidBytes :=
  Sha256Sum.from_data
    (((toString block_height ++ "::" ++ toString vtxindex).toList).map Char.toNat)

/-- One arm of the drain loop of `sync`: rebuild the operation with its
payload fields copied and the four shared fields (txid, vtxindex,
block height, burn header hash) taken from the new block. -/
def stampOp (next_block_header : BurnchainBlockHeader) (vtxindex : Nat) :
    BlockstackOperationType → BlockstackOperationType
  | BlockstackOperationType.LeaderKeyRegister payload =>
      BlockstackOperationType.LeaderKeyRegister
        { consensus_hash := payload.consensus_hash,
          public_key := payload.public_key,
          memo := payload.memo,
          address := payload.address,
          txid := mkTxid next_block_header.block_height vtxindex,
          vtxindex := vtxindex,
          block_height := next_block_header.block_height,
          burn_header_hash := next_block_header.block_hash }
  | BlockstackOperationType.LeaderBlockCommit payload =>
      BlockstackOperationType.LeaderBlockCommit
        { block_header_hash := payload.block_header_hash,
          new_seed := payload.new_seed,
          parent_block_ptr := payload.parent_block_ptr,
          parent_vtxindex := payload.parent_vtxindex,
          key_block_ptr := payload.key_block_ptr,
          key_vtxindex := payload.key_vtxindex,
          memo := payload.memo,
          burn_fee := payload.burn_fee,
          input := payload.input,
          txid := mkTxid next_block_header.block_height vtxindex,
          vtxindex := vtxindex,
          block_height := next_block_header.block_height,
          burn_header_hash := next_block_header.block_hash }
  | BlockstackOperationType.UserBurnSupport payload =>
      BlockstackOperationType.UserBurnSupport
        { address := payload.address,
          consensus_hash := payload.consensus_hash,
          public_key := payload.public_key,
          key_block_ptr := payload.key_block_ptr,
          key_vtxindex := payload.key_vtxindex,
          block_header_hash_160 := payload.block_header_hash_160,
          burn_fee := payload.burn_fee,
          txid := mkTxid next_block_header.block_height vtxindex,
          vtxindex := vtxindex,
          block_height := next_block_header.block_height,
          burn_header_hash := next_block_header.block_hash }

/-- The `while let Some(payload) = ... pop_front()` loop of `sync`: stamp
the queued operations front to back, `vtxindex` starting at the given
counter value and incrementing by one per operation. -/
def stampLoop (next_block_header : BurnchainBlockHeader) :
    Nat → List BlockstackOperationType → List BlockstackOperationType
  | _, [] => []
  | vtxindex, payload :: rest =>
      stampOp next_block_header vtxindex payload ::
        stampLoop next_block_header (vtxindex + 1) rest

/-- The stamped batch `sync` passes to the committer, given the current tip,
the queued operations, and the wall clock: the drain loop run with
`vtxindex = 1` on the header built from the tip. -/
def syncOps (chain_tip : BurnchainTip) (queued : List BlockstackOperationType)
    (now : Nat) : List BlockstackOperationType :=
  stampLoop (build_next_block_header chain_tip.block_snapshot now) 1 queued

/-- The header `sync` derives, as a function of the whole controller state:
built from the cached tip's snapshot alone (`none` when uninitialized). -/
def syncNextHeader (st : MocknetController) (now : Nat) : Option BurnchainBlockHeader :=
  st.chain_tip.map fun chain_tip => build_next_block_header chain_tip.block_snapshot now

/-- Modelled from the spec: the external ledger transaction used by `sync` —
`SortitionHandleTx::begin` anchored at the current snapshot, then
`process_block_ops` on (current snapshot, next header, stamped ops), then
`commit`; any failure of the three steps is `Except.error`. -/
abbrev Committer :=
  BlockSnapshot → BurnchainBlockHeader → List BlockstackOperationType →
    Except Unit (BlockSnapshot × BurnchainStateTransition)

/-- `sync`: read the cached tip (panic when uninitialized), build the next
header, drain and stamp the whole queue, then run the external transaction
and publish the new tip on success.  Every Rust panic (`unreachable!` on a
missing tip or DB, `unwrap` on the transaction) is an `Except.error` result
paired with the controller state as it stood at the panic — in particular
the queue is already drained when the DB is consulted. -/
def sync (committer : Committer) (st : MocknetController) (now : Nat) :
    MocknetController × Except Unit BurnchainTip :=
  match get_chain_tip st with
  | none => (st, Except.error ())
  | some chain_tip =>
    let next_block_header := build_next_block_header chain_tip.block_snapshot now
    let ops := syncOps chain_tip st.queued_operations now
    let drained := { st with queued_operations := [] }
    match drained.db with
    | none => (drained, Except.error ())
    | some _ =>
      match committer chain_tip.block_snapshot next_block_header ops with
      | Except.error e => (drained, Except.error e)
      | Except.ok (block_snapshot, state_transition) =>
        let new_state : BurnchainTip :=
          { block_snapshot := block_snapshot,
            state_transition := state_transition,
            received_at := now }
        ({ drained with chain_tip := some new_state }, Except.ok new_state)

/-! ### Projections and helpers used by the statements -/

/-- The `vtxindex` field shared by the three operation variants. -/
def opVtxindex : BlockstackOperationType → Nat
  | BlockstackOperationType.LeaderKeyRegister p => p.vtxindex
  | BlockstackOperationType.LeaderBlockCommit p => p.vtxindex
  | BlockstackOperationType.UserBurnSupport p => p.vtxindex

/-- The `txid` field shared by the three operation variants. -/
def opTxid : BlockstackOperationType → TxidBytes
  | BlockstackOperationType.LeaderKeyRegister p => p.txid
  | BlockstackOperationType.LeaderBlockCommit p => p.txid
  | BlockstackOperationType.UserBurnSupport p => p.txid

/-- Normalization of the four stamped fields to fixed values, leaving the
variant and the payload fields: two operations have equal `stripStamp`
images exactly when they are the same pending payload. -/
def stripStamp : BlockstackOperationType → BlockstackOperationType
  | BlockstackOperationType.LeaderKeyRegister p =>
      BlockstackOperationType.LeaderKeyRegister
        { p with txid := [], vtxindex := 0, block_height := 0, burn_header_hash := [] }
  | BlockstackOperationType.LeaderBlockCommit p =>
      BlockstackOperationType.LeaderBlockCommit
        { p with txid := [], vtxindex := 0, block_height := 0, burn_header_hash := [] }
  | BlockstackOperationType.UserBurnSupport p =>
      BlockstackOperationType.UserBurnSupport
        { p with txid := [], vtxindex := 0, block_height := 0, burn_header_hash := [] }

/-! ### Concrete fixtures for witnesses and counterexamples -/

/-- A concrete genesis-like snapshot: height 0, all-zero 32-byte hash. -/
def snap0 : BlockSnapshot :=
  { block_height := 0, burn_header_hash := List.replicate 32 0, sortition_id := 0 }

/-- A concrete tip holding `snap0` with an empty state transition. -/
def tip0 : BurnchainTip :=
  { block_snapshot := snap0,
    state_transition := { burn_dist := [], accepted_ops := [], consumed_leader_keys := [] },
    received_at := 0 }

/-- A concrete pending leader-key-register operation. -/
def opA : BlockstackOperationType :=
  BlockstackOperationType.LeaderKeyRegister
    { consensus_hash := 1, public_key := 2, memo := 3, address := 4,
      txid := [9], vtxindex := 5, block_height := 6, burn_header_hash := [7] }

/-- A concrete pending user-burn-support operation, structurally different
from `opA`. -/
def opB : BlockstackOperationType :=
  BlockstackOperationType.UserBurnSupport
    { address := 10, consensus_hash := 11, public_key := 12, key_block_ptr := 13,
      key_vtxindex := 14, block_header_hash_160 := 15, burn_fee := 16,
      txid := [], vtxindex := 0, block_height := 0, burn_header_hash := [] }

/-- Two concrete headers sharing a block height but differing everywhere
else. -/
def hdrA : BurnchainBlockHeader :=
  { block_height := 7, block_hash := [1], parent_block_hash := [],
    num_txs := 0, timestamp := 11 }

/-- See `hdrA`. -/
def hdrB : BurnchainBlockHeader :=
  { block_height := 7, block_hash := [2], parent_block_hash := [3],
    num_txs := 1, timestamp := 22 }

/-- A concrete initialized controller with one queued operation. -/
def mcReady : MocknetController :=
  { config := 0, burnchain := 0, db := some (),
    chain_tip := some tip0, queued_operations := [opA] }

/-- A committer that always fails (the external transaction rejects the
block or the commit fails). -/
def failCommitter : Committer := fun _ _ _ => Except.error ()

/-! ### Helper lemmas -/

/-- Stamping assigns exactly the requested `vtxindex`. -/
theorem opVtxindex_stampOp (hdr : BurnchainBlockHeader) (v : Nat)
    (p : BlockstackOperationType) : opVtxindex (stampOp hdr v p) = v := by
  cases p <;> rfl

/-- Stamping assigns the txid derived from (height, vtxindex). -/
theorem opTxid_stampOp (hdr : BurnchainBlockHeader) (v : Nat)
    (p : BlockstackOperationType) :
    opTxid (stampOp hdr v p) = mkTxid hdr.block_height v := by
  cases p <;> rfl

/-- Stamping does not change the payload: the stripped images coincide. -/
theorem stripStamp_stampOp (hdr : BurnchainBlockHeader) (v : Nat)
    (p : BlockstackOperationType) : stripStamp (stampOp hdr v p) = stripStamp p := by
  cases p <;> rfl

/-- The drain loop preserves the payload sequence. -/
theorem stampLoop_map_stripStamp (hdr : BurnchainBlockHeader) :
    ∀ (q : List BlockstackOperationType) (k : Nat),
      (stampLoop hdr k q).map stripStamp = q.map stripStamp := by
  intro q
  induction q with
  | nil => intro k; rfl
  | cons p rest ih =>
      intro k
      simp [stampLoop, stripStamp_stampOp, ih]

/-- The drain loop assigns the contiguous vtxindex run `k, k+1, ...`. -/
theorem stampLoop_map_opVtxindex (hdr : BurnchainBlockHeader) :
    ∀ (q : List BlockstackOperationType) (k : Nat),
      (stampLoop hdr k q).map opVtxindex = List.range' k q.length := by
  intro q
  induction q with
  | nil => intro k; rfl
  | cons p rest ih =>
      intro k
      simp [stampLoop, opVtxindex_stampOp, ih, List.range'_succ]

/-- The header `sync` derives on an initialized controller is the one built
from the cached tip's snapshot. -/
theorem syncNextHeader_eq_of_tip (st : MocknetController) (tip : BurnchainTip)
    (now : Nat) (h : st.chain_tip = some tip) :
    syncNextHeader st now = some (build_next_block_header tip.block_snapshot now) := by
  simp [syncNextHeader, h]

/-! ### The claims -/

/-- C1: the stamped operations that `sync` passes to the committer appear in
exactly the submission (queue-drain) order — no drops, duplicates, or
reordering — and their `vtxindex` values are exactly the contiguous run
`1..N` over the `N` drained operations. -/
theorem sync_ops_order_and_vtxindex (tip : BurnchainTip)
    (q : List BlockstackOperationType) (now : Nat) :
    (syncOps tip q now).map stripStamp = q.map stripStamp ∧
    (syncOps tip q now).map opVtxindex = List.range' 1 q.length :=
  ⟨stampLoop_map_stripStamp _ q 1, stampLoop_map_opVtxindex _ q 1⟩

/-- C2: the txid stamped onto an operation is a deterministic hash of the
pair (next block height, vtxindex) only: it equals `mkTxid height vtxindex`,
and two stampings at the same (height, vtxindex) pair yield the same txid
even for different payloads and different headers otherwise. -/
theorem txid_depends_only_on_height_vtxindex
    (hdr hdr2 : BurnchainBlockHeader) (vtxindex : Nat)
    (p p2 : BlockstackOperationType)
    (hh : hdr.block_height = hdr2.block_height) :
    opTxid (stampOp hdr vtxindex p) = mkTxid hdr.block_height vtxindex ∧
    opTxid (stampOp hdr vtxindex p) = opTxid (stampOp hdr2 vtxindex p2) := by
  refine ⟨opTxid_stampOp hdr vtxindex p, ?_⟩
  rw [opTxid_stampOp hdr vtxindex p, opTxid_stampOp hdr2 vtxindex p2, hh]

/-- Witness for C2: two concrete headers with equal heights but different
hashes, and two payload-distinct operations, get the same txid. -/
theorem txid_depends_only_on_height_vtxindex_witness :
    hdrA.block_height = hdrB.block_height ∧
    opTxid (stampOp hdrA 1 opA) = mkTxid hdrA.block_height 1 ∧
    opTxid (stampOp hdrA 1 opA) = opTxid (stampOp hdrB 1 opB) :=
  ⟨rfl, txid_depends_only_on_height_vtxindex hdrA hdrB 1 opA opB rfl⟩

/-- C3: `build_next_block_header` returns a header whose height is the
tip's height plus one, whose parent hash is the tip's header hash, and whose
own hash is the SHA-256 digest of the raw bytes of the tip's header hash. -/
theorem build_next_block_header_fields (s : BlockSnapshot) (now : Nat) :
    (build_next_block_header s now).block_height = s.block_height + 1 ∧
    (build_next_block_header s now).parent_block_hash = s.burn_header_hash ∧
    (build_next_block_header s now).block_hash = Sha256Sum.from_data s.burn_header_hash := by
  refine ⟨rfl, rfl, ?_⟩
  simp [build_next_block_header, BurnchainHeaderHash.from_bytes, Sha256Sum.from_data_length]

/-- Counterexample to C4 as stated: the header also carries the wall-clock
timestamp, so two calls on the same tip at different wall-clock seconds
return different headers (they differ in the `timestamp` field). -/
theorem build_next_block_header_not_pure_in_tip_alone :
    build_next_block_header snap0 0 ≠ build_next_block_header snap0 1 := by
  intro h
  have h1 : (0 : Nat) = 1 := congrArg BurnchainBlockHeader.timestamp h
  exact absurd h1 (by decide)

/-- C4 (amended): `build_next_block_header` is a pure function of the tip
and the wall-clock time: all chain-relevant fields (height, own hash, parent
hash, transaction count) depend on the tip alone, and two calls on the same
tip at the same wall-clock second yield identical headers. -/
theorem build_next_block_header_deterministic_given_time
    (s : BlockSnapshot) (n1 n2 : Nat) :
    (build_next_block_header s n1).block_height = (build_next_block_header s n2).block_height ∧
    (build_next_block_header s n1).block_hash = (build_next_block_header s n2).block_hash ∧
    (build_next_block_header s n1).parent_block_hash = (build_next_block_header s n2).parent_block_hash ∧
    (build_next_block_header s n1).num_txs = (build_next_block_header s n2).num_txs ∧
    (n1 = n2 → build_next_block_header s n1 = build_next_block_header s n2) :=
  ⟨rfl, rfl, rfl, rfl, fun h => by rw [h]⟩

/-- Witness for C4 (amended): at a concrete tip and equal times the headers
coincide. -/
theorem build_next_block_header_deterministic_given_time_witness :
    (5 : Nat) = 5 ∧ build_next_block_header snap0 5 = build_next_block_header snap0 5 :=
  ⟨rfl, (build_next_block_header_deterministic_given_time snap0 5 5).2.2.2.2 rfl⟩

/-- C5: the header `sync` derives does not depend on the operation queue —
two controller states differing only in their queued operations yield the
same derived header. -/
theorem sync_header_ignores_queue (st : MocknetController)
    (q1 q2 : List BlockstackOperationType) (now : Nat) :
    syncNextHeader { st with queued_operations := q1 } now =
      syncNextHeader { st with queued_operations := q2 } now := rfl

/-- C6: after `sync` on an initialized controller, the operation queue is
empty, whatever the committer did (success or failure): the queue is drained
before the commit is attempted. -/
theorem sync_drains_queue (committer : Committer) (st : MocknetController)
    (now : Nat) (tip : BurnchainTip) (h : st.chain_tip = some tip) :
    ((sync committer st now).1).queued_operations = [] := by
  simp only [sync, get_chain_tip, h]
  cases hdb : st.db with
  | none => simp [hdb]
  | some u =>
      cases hcm : committer tip.block_snapshot
          (build_next_block_header tip.block_snapshot now)
          (syncOps tip st.queued_operations now) with
      | error e => simp [hdb, hcm]
      | ok pr => obtain ⟨bs, str⟩ := pr; simp [hdb, hcm]

/-- Witness for C6: a concrete initialized controller with one queued
operation and a failing committer ends with an empty queue. -/
theorem sync_drains_queue_witness :
    mcReady.chain_tip = some tip0 ∧
    ((sync failCommitter mcReady 0).1).queued_operations = [] :=
  ⟨rfl, sync_drains_queue failCommitter mcReady 0 tip0 rfl⟩

/-- C7: when `sync` fails (external process-operations call or commit), no
new tip is published: the cached chain tip after the call is exactly the
chain tip from before it. -/
theorem sync_failure_preserves_chain_tip (committer : Committer)
    (st : MocknetController) (now : Nat) (e : Unit)
    (h : (sync committer st now).2 = Except.error e) :
    ((sync committer st now).1).chain_tip = st.chain_tip := by
  cases hct : st.chain_tip with
  | none => simp [sync, get_chain_tip, hct]
  | some tip =>
      cases hdb : st.db with
      | none => simp [sync, get_chain_tip, hct, hdb]
      | some u =>
          cases hcm : committer tip.block_snapshot
              (build_next_block_header tip.block_snapshot now)
              (syncOps tip st.queued_operations now) with
          | error e2 => simp [sync, get_chain_tip, hct, hdb, hcm]
          | ok pr =>
              obtain ⟨bs, str⟩ := pr
              simp [sync, get_chain_tip, hct, hdb, hcm] at h

/-- Witness for C7: with a concrete failing committer, `sync` reports the
failure and the cached tip is unchanged. -/
theorem sync_failure_preserves_chain_tip_witness :
    (sync failCommitter mcReady 0).2 = Except.error () ∧
    ((sync failCommitter mcReady 0).1).chain_tip = mcReady.chain_tip :=
  ⟨rfl, sync_failure_preserves_chain_tip failCommitter mcReady 0 () rfl⟩

/-- C8: `get_chain_tip` on a fresh controller fails (the uninitialized
panic, modelled as `none`); after a successful `start` it returns the
genesis snapshot paired with an empty state transition (no accepted ops, no
burn distribution, no consumed leader keys), which is also the tip `start`
returns. -/
theorem get_chain_tip_lifecycle (config burnchain : Nat) (snap : BlockSnapshot)
    (now : Nat) :
    get_chain_tip (MocknetController.new config burnchain) = none ∧
    get_chain_tip (start (Except.ok snap) (MocknetController.new config burnchain) now).1 =
      some { block_snapshot := snap,
             state_transition :=
               { burn_dist := [], accepted_ops := [], consumed_leader_keys := [] },
             received_at := now } ∧
    (start (Except.ok snap) (MocknetController.new config burnchain) now).2 =
      Except.ok { block_snapshot := snap,
                  state_transition :=
                    { burn_dist := [], accepted_ops := [], consumed_leader_keys := [] },
                  received_at := now } :=
  ⟨rfl, rfl, rfl⟩

/-- C9: stamping only enriches an operation — the variant is preserved and
every payload field is copied unchanged; only the four shared fields (txid,
vtxindex, block height, burn header hash) are reassigned. -/
theorem stampOp_only_sets_shared_fields (hdr : BurnchainBlockHeader) (vtxindex : Nat) :
    (∀ p : LeaderKeyRegisterOp,
        stampOp hdr vtxindex (BlockstackOperationType.LeaderKeyRegister p) =
          BlockstackOperationType.LeaderKeyRegister
            { p with txid := mkTxid hdr.block_height vtxindex, vtxindex := vtxindex,
                     block_height := hdr.block_height, burn_header_hash := hdr.block_hash }) ∧
    (∀ p : LeaderBlockCommitOp,
        stampOp hdr vtxindex (BlockstackOperationType.LeaderBlockCommit p) =
          BlockstackOperationType.LeaderBlockCommit
            { p with txid := mkTxid hdr.block_height vtxindex, vtxindex := vtxindex,
                     block_height := hdr.block_height, burn_header_hash := hdr.block_hash }) ∧
    (∀ p : UserBurnSupportOp,
        stampOp hdr vtxindex (BlockstackOperationType.UserBurnSupport p) =
          BlockstackOperationType.UserBurnSupport
            { p with txid := mkTxid hdr.block_height vtxindex, vtxindex := vtxindex,
                     block_height := hdr.block_height, burn_header_hash := hdr.block_hash }) :=
  ⟨fun _ => rfl, fun _ => rfl, fun _ => rfl⟩

/-- C10: `submit_operation` always returns `true`, its only effect is to
append the operation at the tail of the queue (tip, DB handle, configuration
and burnchain parameters untouched, previously queued operations preserved
as the prefix), and the signer argument influences nothing. -/
theorem submit_operation_frame (st : MocknetController)
    (operation : BlockstackOperationType) (s1 s2 : BurnchainOpSigner) :
    (submit_operation st operation s1).2 = true ∧
    (submit_operation st operation s1).1.queued_operations =
      st.queued_operations ++ [operation] ∧
    (submit_operation st operation s1).1.chain_tip = st.chain_tip ∧
    (submit_operation st operation s1).1.db = st.db ∧
    (submit_operation st operation s1).1.config = st.config ∧
    (submit_operation st operation s1).1.burnchain = st.burnchain ∧
    submit_operation st operation s1 = submit_operation st operation s2 :=
  ⟨rfl, rfl, rfl, rfl, rfl, rfl, rfl⟩

end Mocknet
